import Mathlib

/-!
Verification development for the DeviceManager repository (device_manager package).

The Python sources are shallowly embedded as Lean definitions:
- device.py: `DeviceType`, `Device` (the class hierarchy Device/USBDevice/LANDevice is
  represented by one structure whose `ids` field carries the kind-specific identifier
  fields), `Device.all_addresses`, `Device.reset_addresses`, `Device.from_device`,
  `Device.device_eq` (the dispatched `__eq__`), `format_mac`, the `address_aliases`
  setter, `to_dict` / `from_dict`.
- scanner/_base.py, scanner/_linux.py, scanner/__init__.py: scanner caches as
  `ScannerState`, platform backends abstracted at their interface boundary as a
  `ScanEnv` (the spec declares platform enumeration mechanics external collaborators),
  `scan_usb`, `scan_lan`, `usb_find_devices`, `lan_find_devices`, `agg_list_devices`.
- manager.py: the registry as an insertion-ordered association list, `find_by_device`,
  `find_by_address`, `manager_get_kind`, `manager_set`, `save_manager`, `manager_load`.

Python strings are Lean `String`s, except MAC addresses, which are lists of Unicode
code points (`List Nat`) so that the character-level formatting of
`LANDevice.format_mac` can be stated. Python exceptions are modelled with `Except` /
an error component; `PyErr` names the exception class raised.
-/

/-- Python exception classes that the modelled code can raise. -/
inductive PyErr
  | typeError
  | valueError
  | keyError
  | attributeError
deriving DecidableEq, Repr

/-- device.py, `DeviceType`: the enumeration of supported device kinds. -/
inductive DeviceType
  | usb
  | lan
deriving DecidableEq, Repr

/-- Identifier fields of `USBDevice` (vendor_id, product_id, revision_id, serial).
`vendor_name` / `product_name` are display-only attributes resolved from an external
vendor-database collaborator and take part in no claim; they are omitted. -/
structure USBIds where
  vendor_id : Option Int
  product_id : Option Int
  revision_id : Option Int
  serial : Option String
deriving DecidableEq, Repr

/-- Identifier field of `LANDevice` (mac_address, as a list of code points). -/
structure LANIds where
  mac_address : Option (List Nat)
deriving DecidableEq, Repr

/-- Kind-specific identifier fields; the constructor plays the role of the concrete
Python class (`USBDevice` vs `LANDevice`). -/
inductive DeviceIds
  | usb (f : USBIds)
  | lan (f : LANIds)
deriving DecidableEq, Repr

/-- device.py, `Device` (with its concrete subclasses folded into `ids`):
`_address`, `_address_aliases`, `_old_addresses` and the kind-specific fields. -/
structure Device where
  address : Option String
  address_aliases : List String
  old_addresses : List String
  ids : DeviceIds
deriving DecidableEq, Repr

/-- device.py, `Device.device_type`: the kind tag of the concrete class. -/
def Device.device_type (d : Device) : DeviceType :=
  match d.ids with
  | .usb _ => .usb
  | .lan _ => .lan

/-- device.py, `Device.all_addresses`: `address` followed by `address_aliases`,
omitting `address` when it is None. -/
def Device.all_addresses (d : Device) : List String :=
  match d.address with
  | none => d.address_aliases
  | some a => a :: d.address_aliases

/-- device.py, the loop of `Device.reset_addresses`: append each current address to
`_old_addresses` unless it is already contained there. -/
def resetOld (old : List String) (addrs : List String) : List String :=
  addrs.foldl (fun acc a => if a ∈ acc then acc else acc ++ [a]) old

/-- device.py, `Device.reset_addresses`: move `address` and `address_aliases` to
`_old_addresses`, then clear them. -/
def Device.reset_addresses (d : Device) : Device :=
  { d with
    old_addresses := resetOld d.old_addresses d.all_addresses
    address := none
    address_aliases := [] }

/-- `if other.x is not None: self.x = other.x` for one identifier field. -/
def pickId {α : Type} (other : Option α) (self : Option α) : Option α :=
  match other with
  | some v => some v
  | none => self

/-- device.py, `Device.from_device` composed with the `USBDevice.from_device` /
`LANDevice.from_device` overrides: raises TypeError when `other` is not of the same
concrete class; otherwise resets the current addresses into history, copies `other`'s
current addresses, merges the two histories as a set filtered against the new current
addresses, and backfills each identifier field from `other` when non-None.
(The Python `other is self` identity short-circuit is handled at the call sites that
can pass the same object.) -/
def Device.from_device (d o : Device) : Except PyErr Device :=
  match d.ids, o.ids with
  | .usb fd, .usb fo =>
    let r := d.reset_addresses
    let r := { r with address := o.address, address_aliases := o.address_aliases }
    let r := { r with
      old_addresses :=
        ((r.old_addresses ++ o.old_addresses).dedup).filter
          (fun a => !(decide (a ∈ r.all_addresses))) }
    let fu : USBIds :=
      { vendor_id := pickId fo.vendor_id fd.vendor_id
        product_id := pickId fo.product_id fd.product_id
        revision_id := pickId fo.revision_id fd.revision_id
        serial := pickId fo.serial fd.serial }
    .ok { r with ids := .usb fu }
  | .lan fd, .lan fo =>
    let r := d.reset_addresses
    let r := { r with address := o.address, address_aliases := o.address_aliases }
    let r := { r with
      old_addresses :=
        ((r.old_addresses ++ o.old_addresses).dedup).filter
          (fun a => !(decide (a ∈ r.all_addresses))) }
    let fl : LANIds := { mac_address := pickId fo.mac_address fd.mac_address }
    .ok { r with ids := .lan fl }
  | _, _ => .error .typeError

/-- device.py, `Device.__eq__` base part: `type(other) == type(self)` is checked at the
dispatch sites below; this is `set(self.all_addresses) == set(other.all_addresses)`. -/
def addrSetEq (a b : Device) : Bool :=
  a.all_addresses.all (fun x => decide (x ∈ b.all_addresses)) &&
  b.all_addresses.all (fun x => decide (x ∈ a.all_addresses))

/-- device.py, the dispatched `__eq__`: `USBDevice.__eq__` / `LANDevice.__eq__` first
run `Device.__eq__` (exact type check plus address-set comparison) and then compare
their identifier fields (USB also compares `revision_id`). -/
def Device.device_eq (a b : Device) : Bool :=
  match a.ids, b.ids with
  | .usb fa, .usb fb =>
    addrSetEq a b &&
    (decide (fa.vendor_id = fb.vendor_id) &&
     decide (fa.product_id = fb.product_id) &&
     decide (fa.revision_id = fb.revision_id) &&
     decide (fa.serial = fb.serial))
  | .lan fa, .lan fb =>
    addrSetEq a b && decide (fa.mac_address = fb.mac_address)
  | _, _ => false

/-! MAC address formatting (device.py, `LANDevice.format_mac`). Strings are lists of
code points. The regular expression is `^([0-9A-Fa-f]{2}[.:\-]){5}([0-9A-Fa-f]{2})$`;
on a match the result is the input with `-` and `.` replaced by `:` and then
uppercased. -/

/-- `[0-9A-Fa-f]`: a hexadecimal digit code point. -/
def isHexCp (c : Nat) : Bool :=
  decide ((48 ≤ c ∧ c ≤ 57) ∨ (65 ≤ c ∧ c ≤ 70) ∨ (97 ≤ c ∧ c ≤ 102))

/-- `[.:\-]`: a separator code point. -/
def isSepCp (c : Nat) : Bool :=
  decide (c = 46 ∨ c = 58 ∨ c = 45)

/-- `([0-9A-Fa-f]{2}[.:\-]){n}([0-9A-Fa-f]{2})` anchored at both ends. -/
def macGroups : Nat → List Nat → Bool
  | 0, [a, b] => isHexCp a && isHexCp b
  | n + 1, a :: b :: s :: rest => isHexCp a && isHexCp b && isSepCp s && macGroups n rest
  | _, _ => false

/-- The full `_regex_mac` match as `re.match` evaluates it: five "hex pair plus
separator" groups and a final hex pair, where `$` (without `re.MULTILINE`) matches
at the very end of the string or just before a single trailing newline
(code point 10). -/
def macMatch (l : List Nat) : Bool :=
  macGroups 5 l || (decide (l.getLast? = some 10) && macGroups 5 l.dropLast)

/-- `str.replace("-", ":").replace(".", ":")` on one code point. -/
def sepToColon (c : Nat) : Nat :=
  if c = 45 then 58 else if c = 46 then 58 else c

/-- `str.upper()` on one (ASCII) code point. -/
def upCp (c : Nat) : Nat :=
  if 97 ≤ c ∧ c ≤ 122 then c - 32 else c

/-- The per-code-point effect of `replace("-", ":").replace(".", ":").upper()`. -/
def charOut (c : Nat) : Nat :=
  upCp (sepToColon c)

/-- `mac_address.replace("-", ":").replace(".", ":").upper()`. -/
def macOutput (l : List Nat) : List Nat :=
  l.map charOut

/-- device.py, `LANDevice.format_mac` on a (non-None) string: TypeError when the
regular expression does not match, else the normalized MAC. -/
def format_mac (l : List Nat) : Except PyErr (List Nat) :=
  if macMatch l then .ok (macOutput l) else .error .typeError

/-- device.py, `LANDevice.format_mac` on an Optional string: None maps to None. -/
def format_mac_opt : Option (List Nat) → Except PyErr (Option (List Nat))
  | none => .ok none
  | some l => (format_mac l).map some

/-- The canonical output shape claimed by the spec: a matching MAC whose code points
are all decimal digits, uppercase hex letters, or colons. -/
def isCanonMac (l : List Nat) : Bool :=
  macMatch l &&
  l.all (fun c => decide ((48 ≤ c ∧ c ≤ 57) ∨ (65 ≤ c ∧ c ≤ 70) ∨ c = 58))

/-! The `address_aliases` setter (device.py, `Device.address_aliases.setter`). The
value assigned is None, a single string, or an iterable whose items are strings,
None, or something else. -/

/-- An item of an iterable assigned to `address_aliases`. -/
inductive AliasItem
  | strI (s : String)
  | noneI
  | otherI
deriving DecidableEq, Repr

/-- A value assigned to the `address_aliases` property. -/
inductive AliasesValue
  | noneV
  | strV (s : String)
  | iterV (l : List AliasItem)
deriving DecidableEq, Repr

/-- The iteration loop of the setter: None items are skipped, a non-string item
raises TypeError (re-raised as `TypeError("address_aliases")`). -/
def aliasLoop : List AliasItem → Except PyErr (List String)
  | [] => .ok []
  | .noneI :: rest => aliasLoop rest
  | .otherI :: _ => .error .typeError
  | .strI s :: rest =>
    match aliasLoop rest with
    | .ok xs => .ok (s :: xs)
    | .error e => .error e

/-- device.py, `Device.address_aliases` setter: the list stored in
`_address_aliases` (or the exception raised). -/
def set_address_aliases : AliasesValue → Except PyErr (List String)
  | .noneV => .ok []
  | .strV s => .ok [s]
  | .iterV l => aliasLoop l

/-- The string items of an iterable, in order. -/
def aliasStrings (l : List AliasItem) : List String :=
  l.filterMap (fun i => match i with | .strI s => some s | _ => none)

/-! Scanners (scanner/_base.py, scanner/_linux.py, scanner/__init__.py). Each
per-kind scanner keeps a cached batch `_devices`; the platform backend that produces
a fresh batch (pyudev walk plus raw-device conversion for USB, the arp-table parse
merged with nmap results for LAN) is an external collaborator and is abstracted as a
function of the probe counter. -/

/-- The mutable state of one `BaseDeviceScanner`: the `_devices` cache plus the
number of backend probes performed so far. -/
structure ScannerState where
  cache : List Device
  probes : Nat
deriving DecidableEq, Repr

/-- The two per-kind scanner states owned by a `DeviceScanner` / `DeviceManager`. -/
structure Scanners where
  usb : ScannerState
  lan : ScannerState
deriving DecidableEq, Repr

/-- The external scan environment: the batch each backend probe would produce, and
whether the LAN scanner owns a usable nmap wrapper (`nmap is not None`).
`nmapFold` gives the LAN cache contents after an nmap-assisted rescan (the nmap
completion callback re-runs the LAN `_scan(True)`, merging nmap results). -/
structure ScanEnv where
  usbBackend : Nat → List Device
  lanBackend : Nat → List Device
  nmapPresent : Bool
  nmapFold : Nat → List Device

/-- scanner/_linux.py, `LinuxUSBDeviceScanner._scan`: return the cache unchanged when
it is non-empty and no rescan was requested, else clear it and refill it from the
backend. -/
def scan_usb (env : ScanEnv) (rescan : Bool) (s : ScannerState) : ScannerState :=
  if !s.cache.isEmpty && !rescan then s
  else { cache := env.usbBackend s.probes, probes := s.probes + 1 }

/-- scanner/_base.py, `BaseLANDeviceScanner._scan`: same cache discipline; the body
(arp cache plus nmap merge) is the abstracted backend. -/
def scan_lan (env : ScanEnv) (rescan : Bool) (s : ScannerState) : ScannerState :=
  if !s.cache.isEmpty && !rescan then s
  else { cache := env.lanBackend s.probes, probes := s.probes + 1 }

/-- scanner/_base.py, `BaseDeviceScanner.list_devices` for the USB scanner: run
`_scan` and return the cached batch. -/
def usb_list_devices (env : ScanEnv) (rescan : Bool) (s : ScannerState) :
    List Device × ScannerState :=
  let s' := scan_usb env rescan s
  (s'.cache, s')

/-- scanner/_base.py, `BaseDeviceScanner.list_devices` for the LAN scanner. -/
def lan_list_devices (env : ScanEnv) (rescan : Bool) (s : ScannerState) :
    List Device × ScannerState :=
  let s' := scan_lan env rescan s
  (s'.cache, s')

/-- A keyword filter passed to `find_devices`: either an `address` filter (matched
against `all_addresses`) or the `unique_identifier` fields of one kind (each matched
via `getattr`; a device lacking the attribute does not match). -/
inductive DevFilter
  | byAddress (a : String)
  | usbUid (vendor_id product_id : Option Int) (serial : Option String)
  | lanUid (mac : Option (List Nat))
deriving DecidableEq, Repr

/-- scanner/_base.py, `BaseDeviceScanner._match_filters`. -/
def matchFilter (flt : DevFilter) (d : Device) : Bool :=
  match flt with
  | .byAddress a => decide (a ∈ d.all_addresses)
  | .usbUid v p s =>
    match d.ids with
    | .usb f => decide (f.vendor_id = v) && decide (f.product_id = p) && decide (f.serial = s)
    | .lan _ => false
  | .lanUid m =>
    match d.ids with
    | .lan f => decide (f.mac_address = m)
    | .usb _ => false

/-- The filter built from `search_device.unique_identifier` (`revision_id` is not
part of the USB unique identifier). -/
def uidFilterOf (d : Device) : DevFilter :=
  match d.ids with
  | .usb f => .usbUid f.vendor_id f.product_id f.serial
  | .lan f => .lanUid f.mac_address

/-- scanner/_base.py, `BaseDeviceScanner.find_devices` for the USB scanner: scan,
then filter the cache. -/
def usb_find_devices (env : ScanEnv) (rescan : Bool) (flt : DevFilter)
    (s : ScannerState) : List Device × ScannerState :=
  let s' := scan_usb env rescan s
  (s'.cache.filter (matchFilter flt), s')

/-- scanner/_base.py, `BaseLANDeviceScanner.find_devices`: a `mac_address` filter is
first normalized with `LANDevice.format_mac` (which can raise), then the batch is
scanned and filtered. -/
def lan_find_devices (env : ScanEnv) (rescan : Bool) (flt : DevFilter)
    (s : ScannerState) : Except PyErr (List Device × ScannerState) :=
  match flt with
  | .lanUid m =>
    match format_mac_opt m with
    | .error e => .error e
    | .ok m' =>
      let s' := scan_lan env rescan s
      .ok (s'.cache.filter (matchFilter (.lanUid m')), s')
  | f =>
    let s' := scan_lan env rescan s
    .ok (s'.cache.filter (matchFilter f), s')

/-- scanner/__init__.py, `DeviceScanner._scan` as used by `list_devices`: it clears
its own cache and, for each per-kind scanner in declared order (USB, then LAN),
extends it with that scanner's `_scan(rescan)` RETURN VALUE. The Linux/Win32 USB
`_scan` returns the batch, but `BaseLANDeviceScanner._scan` only fills `_devices`
and returns None, so `extend(None)` raises TypeError. -/
def agg_list_devices (env : ScanEnv) (rescan : Bool) (sc : Scanners) :
    Except PyErr (List Device) × Scanners :=
  let u' := scan_usb env rescan sc.usb
  let usbRet : Option (List Device) := some u'.cache
  match usbRet with
  | none => (.error .typeError, { sc with usb := u' })
  | some bu =>
    let l' := scan_lan env rescan sc.lan
    let lanRet : Option (List Device) := none
    match lanRet with
    | none => (.error .typeError, { usb := u', lan := l' })
    | some bl => (.ok (bu ++ bl), { usb := u', lan := l' })

/-! The device manager (manager.py). The registry is the insertion-ordered mapping
name -> kind -> device. -/

/-- The per-name kind map (`DeviceTypeDict`). -/
abbrev KindMap := List (DeviceType × Device)

/-- The registry mapping of `DeviceDict` (`_dict`). -/
abbrev Registry := List (String × KindMap)

/-- Update (or append) the entry of one kind in a kind map. -/
def kmSet (km : KindMap) (t : DeviceType) (d : Device) : KindMap :=
  match km with
  | [] => [(t, d)]
  | (t0, d0) :: rest => if t0 = t then (t, d) :: rest else (t0, d0) :: kmSet rest t d

/-- Lookup of one kind in a kind map. -/
def kmLookup (km : KindMap) (t : DeviceType) : Option Device :=
  match km with
  | [] => none
  | (t0, d0) :: rest => if t0 = t then some d0 else kmLookup rest t

/-- manager.py, `DeviceDict.set`: create the name entry when absent, then store the
device under its own kind. -/
def regSet (reg : Registry) (name : String) (t : DeviceType) (d : Device) : Registry :=
  match reg with
  | [] => [(name, [(t, d)])]
  | (n0, km) :: rest =>
    if n0 = name then (n0, kmSet km t d) :: rest else (n0, km) :: regSet rest name t d

/-- Lookup of `self._dict[name][t]`. -/
def regLookup (reg : Registry) (name : String) (t : DeviceType) : Option Device :=
  match reg with
  | [] => none
  | (n0, km) :: rest => if n0 = name then kmLookup km t else regLookup rest name t

/-- The full state of a `DeviceManager`: its registry and its scanner caches. -/
structure MState where
  registry : Registry
  scanners : Scanners
deriving DecidableEq, Repr

/-- The control-flow outcome of `DeviceManager.find_by_device`: the cheap path
returned `search_device` itself, a merged match was found, or nothing was found. -/
inductive FindOutcome
  | cheap
  | found (d : Device)
  | notFound
deriving DecidableEq, Repr

/-- manager.py, `DeviceManager.find_by_device`. The cheap path returns the search
device unchanged. Otherwise the kind-matched scanner is queried with `rescan=True`
and the unique-identifier filter. On a match, `copy.copy(search_device)` is merged
with the first result via `from_device`. When a LAN search finds nothing, the code
evaluates `scanner.nmap.valid`, but `NMAPWrapper` (scanner/nmap.py) defines no
attribute `valid` (and `nmap` may itself be None), so this path raises
AttributeError. -/
def find_by_device (env : ScanEnv) (d : Device) (scan : Bool) (sc : Scanners) :
    Except PyErr FindOutcome × Scanners :=
  if !d.all_addresses.isEmpty && !scan then (.ok .cheap, sc)
  else
    match d.ids with
    | .usb _ =>
      let (ds, u') := usb_find_devices env true (uidFilterOf d) sc.usb
      let sc' := { sc with usb := u' }
      match ds with
      | [] => (.ok .notFound, sc')
      | m :: _ =>
        match d.from_device m with
        | .ok r => (.ok (.found r), sc')
        | .error e => (.error e, sc')
    | .lan _ =>
      match lan_find_devices env true (uidFilterOf d) sc.lan with
      | .error e => (.error e, sc)
      | .ok (ds, l') =>
        let sc' := { sc with lan := l' }
        match ds with
        | [] => (.error .attributeError, sc')
        | m :: _ =>
          match d.from_device m with
          | .ok r => (.ok (.found r), sc')
          | .error e => (.error e, sc')

/-- The common post-processing of `get`/`set` after `find_by_device`: merge the found
device into the stored one (a no-op on the cheap path, where `found is device`), or
rotate the addresses into history when nothing was found and addresses exist. -/
def applyFindOutcome (d : Device) : FindOutcome → Except PyErr Device
  | .cheap => .ok d
  | .found f => d.from_device f
  | .notFound => .ok (if !d.all_addresses.isEmpty then d.reset_addresses else d)

/-- manager.py, `DeviceManager.get` with a `(name, kind)` key: look the device up
(KeyError when absent), reconcile it via `find_by_device`, mutate it in place
(which updates the registry entry), and return it. -/
def manager_get_kind (env : ScanEnv) (st : MState) (name : String) (t : DeviceType)
    (scan : Bool) : Except PyErr Device × MState :=
  match regLookup st.registry name t with
  | none => (.error .keyError, st)
  | some d =>
    match find_by_device env d scan st.scanners with
    | (.error e, sc') => (.error e, { st with scanners := sc' })
    | (.ok out, sc') =>
      match applyFindOutcome d out with
      | .error e => (.error e, { st with scanners := sc' })
      | .ok d' => (.ok d', { registry := regSet st.registry name t d', scanners := sc' })

/-- manager.py, `DeviceManager.find_by_address`: check the cache, then force a
rescan; for a LAN (or unspecified) kind with a present nmap wrapper, additionally
run an nmap scan (absorbed on failure) and re-read the cache. With no kind given,
the lookup goes through the aggregate `DeviceScanner.find_devices`, whose `_scan`
raises TypeError (see `agg_list_devices`). -/
def find_by_address (env : ScanEnv) (addr : String) (dt : Option DeviceType)
    (sc : Scanners) : Except PyErr (Option Device) × Scanners :=
  match dt with
  | none =>
    let u' := scan_usb env false sc.usb
    let l' := scan_lan env false sc.lan
    (.error .typeError, { usb := u', lan := l' })
  | some .usb =>
    let (ds, u1) := usb_find_devices env false (.byAddress addr) sc.usb
    match ds with
    | m :: _ => (.ok (some m), { sc with usb := u1 })
    | [] =>
      let (ds2, u2) := usb_find_devices env true (.byAddress addr) u1
      match ds2 with
      | m :: _ => (.ok (some m), { sc with usb := u2 })
      | [] => (.ok none, { sc with usb := u2 })
  | some .lan =>
    match lan_find_devices env false (.byAddress addr) sc.lan with
    | .error e => (.error e, sc)
    | .ok (ds, l1) =>
      match ds with
      | m :: _ => (.ok (some m), { sc with lan := l1 })
      | [] =>
        match lan_find_devices env true (.byAddress addr) l1 with
        | .error e => (.error e, { sc with lan := l1 })
        | .ok (ds2, l2) =>
          match ds2 with
          | m :: _ => (.ok (some m), { sc with lan := l2 })
          | [] =>
            if env.nmapPresent then
              let l3 : ScannerState := { cache := env.nmapFold l2.probes, probes := l2.probes + 1 }
              match lan_find_devices env false (.byAddress addr) l3 with
              | .error e => (.error e, { sc with lan := l3 })
              | .ok (ds3, l4) =>
                match ds3 with
                | m :: _ => (.ok (some m), { sc with lan := l4 })
                | [] => (.ok none, { sc with lan := l4 })
            else (.ok none, { sc with lan := l2 })

/-- A value assigned to a registry entry: a bare address string, a device, or
anything else. -/
inductive SetVal
  | str (s : String)
  | dev (d : Device)
  | other
deriving DecidableEq, Repr

/-- The device branch of `DeviceManager.set`: reconcile the value, then store it. -/
def manager_set_device (env : ScanEnv) (st : MState) (name : String) (d : Device)
    (scan : Bool) : Option PyErr × MState :=
  match find_by_device env d scan st.scanners with
  | (.error e, sc') => (some e, { st with scanners := sc' })
  | (.ok out, sc') =>
    match applyFindOutcome d out with
    | .error e => (some e, { st with scanners := sc' })
    | .ok d' =>
      (none, { registry := regSet st.registry name d'.device_type d', scanners := sc' })

/-- manager.py, `DeviceManager.set`: a string value is resolved via
`find_by_address` (ValueError when nothing is found); a device value is validated
against an explicitly given kind key (ValueError on mismatch; kind keys are modelled
already normalized to `DeviceType`), reconciled and stored; any other value raises
TypeError. Every raise happens before the registry mapping is touched. -/
def manager_set (env : ScanEnv) (st : MState) (name : String) (dt : Option DeviceType)
    (v : SetVal) (scan : Bool) : Option PyErr × MState :=
  match v with
  | .str s =>
    match find_by_address env s dt st.scanners with
    | (.error e, sc') => (some e, { st with scanners := sc' })
    | (.ok none, sc') => (some .valueError, { st with scanners := sc' })
    | (.ok (some dev), sc') =>
      (none, { registry := regSet st.registry name dev.device_type dev, scanners := sc' })
  | .dev d =>
    match dt with
    | some t =>
      if t ≠ d.device_type then (some .valueError, st)
      else manager_set_device env st name d scan
    | none => manager_set_device env st name d scan
  | .other => (some .typeError, st)

/-! Persistence (manager.py `save`/`load`, device.py `to_dict`/`from_dict`). A
serialized device is a flat attribute mapping; optional identifier keys are emitted
only when non-None, which the `Option` fields model (`from_dict` treats a missing
key and None alike). -/

/-- One serialized device: the value under a kind tag in the JSON file. -/
structure DevRepr where
  rtype : String
  address : Option String
  address_aliases : List String
  vendor_id : Option Int
  product_id : Option Int
  revision_id : Option Int
  serial : Option String
  mac_address : Option (List Nat)
deriving DecidableEq, Repr

/-- The string tag of a kind (`DeviceType.value`). -/
def kindTag : DeviceType → String
  | .usb => "usb"
  | .lan => "lan"

/-- `DeviceType(value)` on a string tag (tags in saved files are lowercase). -/
def tagKind (s : String) : Option DeviceType :=
  if s = "usb" then some .usb else if s = "lan" then some .lan else none

/-- device.py, `Device.to_dict` with the `USBDevice`/`LANDevice` overrides. -/
def Device.to_dict (d : Device) : DevRepr :=
  match d.ids with
  | .usb f =>
    { rtype := "usb", address := d.address, address_aliases := d.address_aliases
      vendor_id := f.vendor_id, product_id := f.product_id
      revision_id := f.revision_id, serial := f.serial, mac_address := none }
  | .lan f =>
    { rtype := "lan", address := d.address, address_aliases := d.address_aliases
      vendor_id := none, product_id := none, revision_id := none, serial := none
      mac_address := f.mac_address }

/-- The identifier fields of a freshly constructed `USBDevice()` / `LANDevice()`. -/
def emptyIds : DeviceType → DeviceIds
  | .usb => .usb { vendor_id := none, product_id := none, revision_id := none, serial := none }
  | .lan => .lan { mac_address := none }

/-- device.py, `from_dict` on a freshly constructed device of kind `t` with
`old=True` (as used by `DeviceManager.load`): set address and aliases, move them to
`_old_addresses` via `reset_addresses`, then fill the kind-specific fields (the MAC
goes through the `mac_address` setter, i.e. `format_mac`). -/
def deviceFromDictOld (t : DeviceType) (r : DevRepr) : Except PyErr Device :=
  let base : Device :=
    { address := r.address, address_aliases := r.address_aliases
      old_addresses := [], ids := emptyIds t }
  let base := base.reset_addresses
  match t with
  | .usb =>
    let fu : USBIds :=
      { vendor_id := r.vendor_id, product_id := r.product_id
        revision_id := r.revision_id, serial := r.serial }
    .ok { base with ids := .usb fu }
  | .lan =>
    match format_mac_opt r.mac_address with
    | .error e => .error e
    | .ok m =>
      let fl : LANIds := { mac_address := m }
      .ok { base with ids := .lan fl }

/-- manager.py, `DeviceManager.save`: serialize every named device under its kind
tag, in registry order. -/
def save_manager (st : MState) : List (String × List (String × DevRepr)) :=
  st.registry.map (fun p => (p.1, p.2.map (fun q => (kindTag q.1, q.2.to_dict))))

/-- One entry of `DeviceManager.load`: construct a device of the tagged kind, fill
it with `from_dict(raw, old=True)`, and store it with `self[name] = device`, which
dispatches to `DeviceManager.set` (and therefore reconciles). -/
def loadEntryDevice (env : ScanEnv) (st : MState) (name : String) (tag : String)
    (r : DevRepr) : Option PyErr × MState :=
  match tagKind tag with
  | none => (some .valueError, st)
  | some t =>
    match deviceFromDictOld t r with
    | .error e => (some e, st)
    | .ok d => manager_set env st name none (.dev d) false

/-- The inner loop of `load` over the kind entries of one name. -/
def loadInner (env : ScanEnv) (st : MState) (name : String) :
    List (String × DevRepr) → Option PyErr × MState
  | [] => (none, st)
  | (tag, r) :: rest =>
    match loadEntryDevice env st name tag r with
    | (some e, st') => (some e, st')
    | (none, st') => loadInner env st' name rest

/-- The outer loop of `load` over the names. -/
def loadOuter (env : ScanEnv) (st : MState) :
    List (String × List (String × DevRepr)) → Option PyErr × MState
  | [] => (none, st)
  | (name, kinds) :: rest =>
    match loadInner env st name kinds with
    | (some e, st') => (some e, st')
    | (none, st') => loadOuter env st' rest

/-- manager.py, `DeviceManager.load` with `clear=True`: clear the registry, then add
every entry of the file. -/
def manager_load (env : ScanEnv) (st : MState)
    (entries : List (String × List (String × DevRepr))) : Option PyErr × MState :=
  loadOuter env { st with registry := [] } entries

/-- The address-history disjointness invariant of the spec:
`historicalAddresses(d) ∩ allAddresses(d) = ∅`. -/
def oldDisjoint (d : Device) : Prop :=
  ∀ a ∈ d.old_addresses, a ∉ d.all_addresses

/-! Concrete devices, states and environments used by the concrete theorems and
witnesses below. -/

/-- An environment in which every backend probe reports no devices. -/
def env0 : ScanEnv :=
  { usbBackend := fun _ => [], lanBackend := fun _ => [], nmapPresent := false
    nmapFold := fun _ => [] }

/-- Fresh scanner caches. -/
def scanners0 : Scanners :=
  { usb := { cache := [], probes := 0 }, lan := { cache := [], probes := 0 } }

/-- A `USBDevice()` with no attribute set. -/
def usbIdsNone : USBIds :=
  { vendor_id := none, product_id := none, revision_id := none, serial := none }

/-- A plain USB device with no addresses and no identifiers. -/
def usbPlain : Device :=
  { address := none, address_aliases := [], old_addresses := [], ids := .usb usbIdsNone }

/-- An environment whose USB backend reports one device on every probe. -/
def envOneUsb : ScanEnv :=
  { usbBackend := fun _ => [usbPlain], lanBackend := fun _ => [], nmapPresent := false
    nmapFold := fun _ => [] }

/-- Two USB devices with identical identifier fields but different addresses
(the spec's identity-equality counterexample pair). -/
def usbIdsC1 : USBIds :=
  { vendor_id := some 4386, product_id := some 43947, revision_id := none
    serial := some "AB1234CD" }

/-- First device of the C1 pair, at address USB0. -/
def devC1a : Device :=
  { address := some "USB0", address_aliases := [], old_addresses := []
    ids := .usb usbIdsC1 }

/-- Second device of the C1 pair, at address USB1. -/
def devC1b : Device :=
  { address := some "USB1", address_aliases := [], old_addresses := []
    ids := .usb usbIdsC1 }

/-- A `LANDevice()` with no attribute set. -/
def lanIdsNone : LANIds := { mac_address := none }

/-- A plain LAN device with no addresses and no identifiers. -/
def lanPlain : Device :=
  { address := none, address_aliases := [], old_addresses := [], ids := .lan lanIdsNone }

/-- Identifiers of the update source used in the C9 witness: only vendor_id set. -/
def devC9otherIds : USBIds :=
  { vendor_id := some 7, product_id := none, revision_id := none, serial := none }

/-- The update source of the C9 witness. -/
def devC9other : Device :=
  { address := some "USB2", address_aliases := ["USB3"], old_addresses := []
    ids := .usb devC9otherIds }

/-- Expected identifiers after merging `devC9other` into `devC1a`: vendor_id
overwritten, the absent fields of the source leave the target's values intact. -/
def devC9mergedIds : USBIds :=
  { vendor_id := some 7, product_id := some 43947, revision_id := none
    serial := some "AB1234CD" }

/-- Expected device after merging `devC9other` into `devC1a`. -/
def devC9merged : Device :=
  { address := some "USB2", address_aliases := ["USB3"], old_addresses := ["USB0"]
    ids := .usb devC9mergedIds }

/-- A mixed-case, mixed-separator MAC string, as code points. -/
def macMixedW : List Nat := "aA-bB:cC.dD-eE:fF".data.map Char.toNat

/-- The lowercase variant of `macMixedW`. -/
def macLowerW : List Nat := "aa-bb:cc.dd-ee:ff".data.map Char.toNat

/-- A separator-free string that the MAC regular expression rejects. -/
def macBadW : List Nat := "1234567890AB".data.map Char.toNat

/-- The empty manager state with fresh scanners. -/
def mstEmpty : MState := { registry := [], scanners := scanners0 }

/-- A one-entry registry holding `usbPlain` under the name n. -/
def stW : MState := { registry := [("n", [(.usb, usbPlain)])], scanners := scanners0 }

/-- `stW` after one reconciling read against empty backends: the registry entry is
unchanged and the USB scanner probed once. -/
def stWafter : MState :=
  { registry := [("n", [(.usb, usbPlain)])]
    scanners := { usb := { cache := [], probes := 1 }, lan := { cache := [], probes := 0 } } }

/-- Canonical MAC of the C3 LAN device. -/
def macC3 : List Nat := "CD:EB:90:AE:13:67".data.map Char.toNat

/-- Identifier record of the C3 LAN device. -/
def lanIdsC3 : LANIds := { mac_address := some macC3 }

/-- A stored LAN device with a current address (C3). -/
def lanDevC3 : Device :=
  { address := some "192.168.10.81", address_aliases := [], old_addresses := []
    ids := .lan lanIdsC3 }

/-- A stored USB device with current addresses (C3). -/
def usbDevC3 : Device :=
  { address := some "USB0", address_aliases := ["USB1"], old_addresses := []
    ids := .usb usbIdsC1 }

/-- A stored USB device with no current addresses (C3). -/
def usbDevC3NoAddr : Device :=
  { address := none, address_aliases := [], old_addresses := ["USB9"]
    ids := .usb usbIdsC1 }

/-- Registry holding the C3 LAN device. -/
def stC3lan : MState :=
  { registry := [("dev", [(.lan, lanDevC3)])], scanners := scanners0 }

/-- Registry holding the C3 USB device. -/
def stC3usb : MState :=
  { registry := [("dev", [(.usb, usbDevC3)])], scanners := scanners0 }

/-- Registry holding the address-less C3 USB device. -/
def stC3usbNA : MState :=
  { registry := [("dev", [(.usb, usbDevC3NoAddr)])], scanners := scanners0 }

/-- Canonical MAC of the C4 LAN device. -/
def macC4 : List Nat := "12:34:56:78:90:AB".data.map Char.toNat

/-- Identifier record of the C4 USB device. -/
def usbIdsC4 : USBIds :=
  { vendor_id := some 4386, product_id := some 43947, revision_id := none
    serial := some "AB1234CD" }

/-- Identifier record of the C4 LAN device. -/
def lanIdsC4 : LANIds := { mac_address := some macC4 }

/-- The named USB device of the C4 round-trip. -/
def usbDevC4 : Device :=
  { address := some "USB0\\dev", address_aliases := ["USB0\\A", "USB0\\B"]
    old_addresses := [], ids := .usb usbIdsC4 }

/-- The named LAN device of the C4 round-trip. -/
def lanDevC4 : Device :=
  { address := some "192.168.1.2", address_aliases := [], old_addresses := []
    ids := .lan lanIdsC4 }

/-- The registry saved in the C4 round-trip. -/
def stC4 : MState :=
  { registry := [("my-usb", [(.usb, usbDevC4)]), ("my-lan", [(.lan, lanDevC4)])]
    scanners := scanners0 }

/-- Expected serialized form of the C4 USB device (absent fields omitted). -/
def usbReprC4 : DevRepr :=
  { rtype := "usb", address := some "USB0\\dev"
    address_aliases := ["USB0\\A", "USB0\\B"]
    vendor_id := some 4386, product_id := some 43947, revision_id := none
    serial := some "AB1234CD", mac_address := none }

/-- Expected serialized form of the C4 LAN device. -/
def lanReprC4 : DevRepr :=
  { rtype := "lan", address := some "192.168.1.2", address_aliases := []
    vendor_id := none, product_id := none, revision_id := none, serial := none
    mac_address := some macC4 }

/-- The C4 USB device as reconstructed by `load`: same identifiers, all saved
addresses historical, current addresses empty. -/
def loadedUsbC4 : Device :=
  { address := none, address_aliases := []
    old_addresses := ["USB0\\dev", "USB0\\A", "USB0\\B"], ids := .usb usbIdsC4 }

/-- The C4 LAN device as deserialization alone reconstructs it (before the
reconciling store raises). -/
def loadedLanC4 : Device :=
  { address := none, address_aliases := [], old_addresses := ["192.168.1.2"]
    ids := .lan lanIdsC4 }

/-- A valid MAC body followed by one trailing newline, as code points. -/
def macNlW : List Nat := "aa-bb-cc-dd-ee-ff\n".data.map Char.toNat

/-- What `format_mac` returns on `macNlW`: the normalized MAC with the newline
preserved. -/
def macNlOutW : List Nat := "AA:BB:CC:DD:EE:FF\n".data.map Char.toNat

/-! Theorems. -/

theorem aliasLoop_ok (l : List AliasItem) (h : AliasItem.otherI ∉ l) :
    aliasLoop l = .ok (aliasStrings l) := by
  induction l with
  | nil => rfl
  | cons i rest ih =>
    cases i with
    | strI s =>
      have hrest : AliasItem.otherI ∉ rest := fun hm => h (List.mem_cons_of_mem _ hm)
      simp only [aliasLoop, aliasStrings, List.filterMap_cons, ih hrest]
    | noneI =>
      have hrest : AliasItem.otherI ∉ rest := fun hm => h (List.mem_cons_of_mem _ hm)
      simp only [aliasLoop, aliasStrings, List.filterMap_cons]
      exact ih hrest
    | otherI => exact absurd (List.mem_cons_self _ _) h

theorem aliasLoop_err (l : List AliasItem) (h : AliasItem.otherI ∈ l) :
    aliasLoop l = .error .typeError := by
  induction l with
  | nil => cases h
  | cons i rest ih =>
    cases i with
    | strI s =>
      have hrest : AliasItem.otherI ∈ rest := by
        cases h with
        | tail _ hm => exact hm
      simp only [aliasLoop, ih hrest]
    | noneI =>
      have hrest : AliasItem.otherI ∈ rest := by
        cases h with
        | tail _ hm => exact hm
      simpa only [aliasLoop] using ih hrest
    | otherI => rfl

/-- Claim C10: assigning to the `address_aliases` property normalizes its input:
None yields an empty alias list; a single string `s` yields `[s]` (not iterated
character-wise); None items of an iterable are silently skipped; an iterable
containing a non-string, non-None item raises TypeError. -/
theorem C10_address_aliases_setter :
    set_address_aliases .noneV = .ok []
    ∧ (∀ s, set_address_aliases (.strV s) = .ok [s])
    ∧ (∀ l, AliasItem.otherI ∉ l →
        set_address_aliases (.iterV l) = .ok (aliasStrings l))
    ∧ (∀ l, AliasItem.otherI ∈ l →
        set_address_aliases (.iterV l) = .error .typeError) := by
  refine ⟨rfl, fun s => rfl, ?_, ?_⟩
  · intro l h
    simpa only [set_address_aliases] using aliasLoop_ok l h
  · intro l h
    simpa only [set_address_aliases] using aliasLoop_err l h

/-- Closed witness for C10, evaluating the setter on concrete inputs. -/
theorem C10_address_aliases_setter_witness :
    set_address_aliases (.iterV [.noneI, .strI "a", .noneI, .strI "b"]) = .ok ["a", "b"]
    ∧ set_address_aliases (.iterV [.strI "a", .otherI]) = .error .typeError :=
  ⟨C10_address_aliases_setter.2.2.1 [.noneI, .strI "a", .noneI, .strI "b"] (by decide),
   C10_address_aliases_setter.2.2.2 [.strI "a", .otherI] (by decide)⟩

/-- Claim C8: the aggregate `DeviceScanner` is claimed to concatenate every per-kind
scanner's results in declared kind order. The code instead raises: its `_scan`
extends the batch with each sub-scanner's `_scan` return value, and the LAN
scanner's `_scan` returns None, so `list.extend(None)` raises TypeError on every
aggregate listing (this is the failing evaluation of the code; the repository's own
tests only pass because they replace `_scan` with mocks returning tuples). -/
theorem C8_aggregate_listing_raises (env : ScanEnv) (rescan : Bool) (sc : Scanners) :
    (agg_list_devices env rescan sc).1 = .error .typeError := rfl

theorem scan_usb_of_cache_nonempty (env : ScanEnv) (s : ScannerState)
    (h : s.cache ≠ []) : scan_usb env false s = s := by
  unfold scan_usb
  simp [List.isEmpty_iff, h]

theorem scan_lan_of_cache_nonempty (env : ScanEnv) (s : ScannerState)
    (h : s.cache ≠ []) : scan_lan env false s = s := by
  unfold scan_lan
  simp [List.isEmpty_iff, h]

/-- Claim C7: per-kind scanner cache semantics. A second `list_devices(rescan=False)`
call after a first one that produced a non-empty batch returns the identical batch
and state (in particular the backend probe counter does not advance), and
`list_devices(rescan=True)` always probes the backend once more and replaces the
cached batch with the probe's result. -/
theorem C7_scanner_cache :
    (∀ env s, (usb_list_devices env false s).1 ≠ [] →
      usb_list_devices env false (usb_list_devices env false s).2
        = usb_list_devices env false s)
    ∧ (∀ env s, (usb_list_devices env true s).2.probes = s.probes + 1
        ∧ (usb_list_devices env true s).1 = env.usbBackend s.probes)
    ∧ (∀ env s, (lan_list_devices env false s).1 ≠ [] →
      lan_list_devices env false (lan_list_devices env false s).2
        = lan_list_devices env false s)
    ∧ (∀ env s, (lan_list_devices env true s).2.probes = s.probes + 1
        ∧ (lan_list_devices env true s).1 = env.lanBackend s.probes) := by
  refine ⟨?_, ?_, ?_, ?_⟩
  · intro env s h
    unfold usb_list_devices at h ⊢
    have hc : (scan_usb env false s).cache ≠ [] := h
    rw [scan_usb_of_cache_nonempty env (scan_usb env false s) hc]
  · intro env s
    constructor <;> simp [usb_list_devices, scan_usb]
  · intro env s h
    unfold lan_list_devices at h ⊢
    have hc : (scan_lan env false s).cache ≠ [] := h
    rw [scan_lan_of_cache_nonempty env (scan_lan env false s) hc]
  · intro env s
    constructor <;> simp [lan_list_devices, scan_lan]

/-- Closed witness for C7: with a backend reporting one device, a second cheap
listing returns the identical batch without advancing the probe counter. -/
theorem C7_scanner_cache_witness :
    usb_list_devices envOneUsb false
        (usb_list_devices envOneUsb false { cache := [], probes := 0 }).2
      = usb_list_devices envOneUsb false { cache := [], probes := 0 } :=
  C7_scanner_cache.1 envOneUsb { cache := [], probes := 0 } (by decide)

theorem addrSetEq_iff (a b : Device) :
    addrSetEq a b = true ↔ (∀ x, x ∈ a.all_addresses ↔ x ∈ b.all_addresses) := by
  unfold addrSetEq
  simp only [Bool.and_eq_true, List.all_eq_true, decide_eq_true_eq]
  constructor
  · rintro ⟨h1, h2⟩ x
    exact ⟨fun hx => h1 x hx, fun hx => h2 x hx⟩
  · intro h
    exact ⟨fun x hx => (h x).1 hx, fun x hx => (h x).2 hx⟩

/-- Counterexample to claim C1: two USB devices with identical kind and identical
unique-identifier tuples (vendor_id, product_id, serial, all absences matching) but
different addresses. The claim says they are identity-equal; the code's `__eq__`
compares the address sets as well (see `Device.device_eq`) and returns False.
The repository's own tests assert this address-sensitive behavior
(test_device.py, "USBDevices should be unequal after resetting addresses"). -/
theorem C1_eq_counterexample :
    devC1a.ids = devC1b.ids ∧ Device.device_eq devC1a devC1b = false := by
  constructor <;> rfl

/-- Claim C1 as amended: `__eq__` holds exactly when both devices have the same
concrete kind with component-wise identical identifier fields (USB: vendor_id,
product_id, revision_id, serial; LAN: mac_address), including matching absences,
AND their sets of current addresses (address plus address_aliases) coincide.
Devices of different kinds never compare equal; historical addresses are ignored. -/
theorem C1_eq_characterization (a b : Device) :
    Device.device_eq a b = true ↔
      (a.ids = b.ids ∧ ∀ x, x ∈ a.all_addresses ↔ x ∈ b.all_addresses) := by
  cases hai : a.ids with
  | usb fa =>
    cases hbi : b.ids with
    | usb fb =>
      simp only [Device.device_eq, hai, hbi, Bool.and_eq_true, decide_eq_true_eq,
        addrSetEq_iff, DeviceIds.usb.injEq]
      cases fa with
      | mk av ap ar as =>
        cases fb with
        | mk bv bp br bs =>
          simp only [USBIds.mk.injEq]
          tauto
    | lan fb =>
      simp only [Device.device_eq, hai, hbi]
      simp
  | lan fa =>
    cases hbi : b.ids with
    | usb fb =>
      simp only [Device.device_eq, hai, hbi]
      simp
    | lan fb =>
      simp only [Device.device_eq, hai, hbi, Bool.and_eq_true, decide_eq_true_eq,
        addrSetEq_iff, DeviceIds.lan.injEq]
      cases fa with
      | mk am =>
        cases fb with
        | mk bm =>
          simp only [LANIds.mk.injEq]
          tauto

/-- Claim C9: `from_device` between same-kind devices replaces the current
addresses with the other device's and backfills each identifier field without
erasing (the other device's value wins only when it is non-absent); a device of a
different concrete kind raises TypeError (before any mutation). -/
theorem C9_from_device_backfill :
    (∀ (d o : Device) (fd fo : USBIds),
      d.ids = DeviceIds.usb fd → o.ids = DeviceIds.usb fo →
      (d.from_device o).isOk = true
      ∧ (∀ (d' : Device) (fd' : USBIds),
          d.from_device o = .ok d' → d'.ids = DeviceIds.usb fd' →
          d'.address = o.address
          ∧ d'.address_aliases = o.address_aliases
          ∧ (fo.vendor_id = none → fd'.vendor_id = fd.vendor_id)
          ∧ (∀ v, fo.vendor_id = some v → fd'.vendor_id = some v)
          ∧ (fo.product_id = none → fd'.product_id = fd.product_id)
          ∧ (∀ v, fo.product_id = some v → fd'.product_id = some v)
          ∧ (fo.revision_id = none → fd'.revision_id = fd.revision_id)
          ∧ (∀ v, fo.revision_id = some v → fd'.revision_id = some v)
          ∧ (fo.serial = none → fd'.serial = fd.serial)
          ∧ (∀ v, fo.serial = some v → fd'.serial = some v)))
    ∧ (∀ (d o : Device) (fd fo : LANIds),
      d.ids = DeviceIds.lan fd → o.ids = DeviceIds.lan fo →
      (d.from_device o).isOk = true
      ∧ (∀ (d' : Device) (fl : LANIds),
          d.from_device o = .ok d' → d'.ids = DeviceIds.lan fl →
          d'.address = o.address
          ∧ d'.address_aliases = o.address_aliases
          ∧ (fo.mac_address = none → fl.mac_address = fd.mac_address)
          ∧ (∀ v, fo.mac_address = some v → fl.mac_address = some v)))
    ∧ (∀ (d o : Device) (fd : USBIds) (fo : LANIds),
        d.ids = DeviceIds.usb fd → o.ids = DeviceIds.lan fo →
        d.from_device o = .error .typeError)
    ∧ (∀ (d o : Device) (fd : LANIds) (fo : USBIds),
        d.ids = DeviceIds.lan fd → o.ids = DeviceIds.usb fo →
        d.from_device o = .error .typeError) := by
  refine ⟨?_, ?_, ?_, ?_⟩
  · intro d o fd fo hd ho
    constructor
    · simp only [Device.from_device, hd, ho]
      rfl
    · intro d' fd' hok hids
      simp only [Device.from_device, hd, ho, Except.ok.injEq] at hok
      subst hok
      simp only [DeviceIds.usb.injEq] at hids
      subst hids
      refine ⟨rfl, rfl, ?_, ?_, ?_, ?_, ?_, ?_, ?_, ?_⟩
      all_goals first
        | (intro h; simp only [pickId, h])
        | (intro v h; simp only [pickId, h])
  · intro d o fd fo hd ho
    constructor
    · simp only [Device.from_device, hd, ho]
      rfl
    · intro d' fl hok hids
      simp only [Device.from_device, hd, ho, Except.ok.injEq] at hok
      subst hok
      simp only [DeviceIds.lan.injEq] at hids
      subst hids
      refine ⟨rfl, rfl, ?_, ?_⟩
      · intro h; simp only [pickId, h]
      · intro v h; simp only [pickId, h]
  · intro d o fd fo hd ho
    simp only [Device.from_device, hd, ho]
  · intro d o fd fo hd ho
    simp only [Device.from_device, hd, ho]

/-- Closed witness for C9, merging two concrete USB devices and checking the
backfill, plus a concrete kind-mismatch TypeError. -/
theorem C9_from_device_backfill_witness :
    devC1a.from_device devC9other = .ok devC9merged
    ∧ devC9merged.address = some "USB2"
    ∧ devC9merged.address_aliases = ["USB3"]
    ∧ devC9mergedIds.vendor_id = some 7
    ∧ devC9mergedIds.revision_id = none
    ∧ devC9mergedIds.serial = some "AB1234CD"
    ∧ usbPlain.from_device lanPlain = .error .typeError := by
  refine ⟨rfl, ?_, ?_, ?_, ?_, ?_, ?_⟩
  · exact ((C9_from_device_backfill.1 devC1a devC9other usbIdsC1 devC9otherIds rfl rfl).2
      devC9merged devC9mergedIds rfl rfl).1
  · exact ((C9_from_device_backfill.1 devC1a devC9other usbIdsC1 devC9otherIds rfl rfl).2
      devC9merged devC9mergedIds rfl rfl).2.1
  · exact ((C9_from_device_backfill.1 devC1a devC9other usbIdsC1 devC9otherIds rfl rfl).2
      devC9merged devC9mergedIds rfl rfl).2.2.2.1 7 rfl
  · exact ((C9_from_device_backfill.1 devC1a devC9other usbIdsC1 devC9otherIds rfl rfl).2
      devC9merged devC9mergedIds rfl rfl).2.2.2.2.2.2.1 rfl
  · exact ((C9_from_device_backfill.1 devC1a devC9other usbIdsC1 devC9otherIds rfl rfl).2
      devC9merged devC9mergedIds rfl rfl).2.2.2.2.2.2.2.2.1 rfl
  · exact C9_from_device_backfill.2.2.1 usbPlain lanPlain usbIdsNone lanIdsNone rfl rfl

theorem isHexCp_upCp (c : Nat) : isHexCp (upCp c) = isHexCp c := by
  unfold isHexCp upCp
  split_ifs with h
  · exact decide_eq_decide.mpr (by omega)
  · rfl

theorem isSepCp_upCp (c : Nat) : isSepCp (upCp c) = isSepCp c := by
  unfold isSepCp upCp
  split_ifs with h
  · exact decide_eq_decide.mpr (by omega)
  · rfl

theorem charOut_upCp (c : Nat) : charOut (upCp c) = charOut c := by
  unfold charOut sepToColon upCp
  split_ifs <;> omega

theorem charOut_hex (c : Nat) (h : isHexCp c = true) :
    charOut c = upCp c
    ∧ isHexCp (charOut c) = true
    ∧ charOut (charOut c) = charOut c
    ∧ ((48 ≤ charOut c ∧ charOut c ≤ 57) ∨ (65 ≤ charOut c ∧ charOut c ≤ 70)) := by
  simp only [isHexCp, decide_eq_true_eq] at h
  unfold charOut sepToColon upCp isHexCp
  simp only [decide_eq_true_eq]
  split_ifs <;> omega

theorem charOut_sep (c : Nat) (h : isSepCp c = true) :
    charOut c = 58
    ∧ isSepCp (charOut c) = true
    ∧ charOut (charOut c) = charOut c := by
  simp only [isSepCp, decide_eq_true_eq] at h
  unfold charOut sepToColon upCp isSepCp
  simp only [decide_eq_true_eq]
  split_ifs <;> omega

theorem macGroups_charOut : ∀ n l, macGroups n l = true →
    macGroups n (l.map charOut) = true
    ∧ (l.map charOut).map charOut = l.map charOut
    ∧ ∀ c ∈ l.map charOut, ((48 ≤ c ∧ c ≤ 57) ∨ (65 ≤ c ∧ c ≤ 70) ∨ c = 58) := by
  intro n
  induction n with
  | zero =>
    intro l h
    rcases l with _ | ⟨a, _ | ⟨b, _ | ⟨s, rest⟩⟩⟩
    · simp [macGroups] at h
    · simp [macGroups] at h
    · simp only [macGroups, Bool.and_eq_true] at h
      obtain ⟨ha, hb⟩ := h
      obtain ⟨hae, hah, hai, har⟩ := charOut_hex a ha
      obtain ⟨hbe, hbh, hbi, hbr⟩ := charOut_hex b hb
      refine ⟨?_, ?_, ?_⟩
      · simp [macGroups, hah, hbh]
      · simp [hai, hbi]
      · intro c hc
        simp only [List.map_cons, List.map_nil, List.mem_cons, List.not_mem_nil,
          or_false] at hc
        rcases hc with rfl | rfl
        · tauto
        · tauto
    · simp [macGroups] at h
  | succ n ih =>
    intro l h
    rcases l with _ | ⟨a, _ | ⟨b, _ | ⟨s, rest⟩⟩⟩
    · simp [macGroups] at h
    · simp [macGroups] at h
    · simp [macGroups] at h
    · simp only [macGroups, Bool.and_eq_true] at h
      obtain ⟨⟨⟨ha, hb⟩, hs⟩, hrest⟩ := h
      obtain ⟨hae, hah, hai, har⟩ := charOut_hex a ha
      obtain ⟨hbe, hbh, hbi, hbr⟩ := charOut_hex b hb
      obtain ⟨hse, hsh, hsi⟩ := charOut_sep s hs
      obtain ⟨ih1, ih2, ih3⟩ := ih rest hrest
      refine ⟨?_, ?_, ?_⟩
      · simp [macGroups, hah, hbh, hsh, ih1]
      · simp [hai, hbi, hsi, ih2]
      · intro c hc
        simp only [List.map_cons, List.mem_cons] at hc
        rcases hc with rfl | rfl | rfl | hc
        · tauto
        · tauto
        · right; right; exact hse
        · exact ih3 c (by simpa using hc)

theorem macGroups_map_upCp : ∀ n l, macGroups n (l.map upCp) = macGroups n l := by
  intro n
  induction n with
  | zero =>
    intro l
    rcases l with _ | ⟨a, _ | ⟨b, _ | ⟨s, rest⟩⟩⟩
    · rfl
    · rfl
    · simp [macGroups, isHexCp_upCp]
    · rfl
  | succ n ih =>
    intro l
    rcases l with _ | ⟨a, _ | ⟨b, _ | ⟨s, rest⟩⟩⟩
    · rfl
    · rfl
    · rfl
    · simp [macGroups, isHexCp_upCp, isSepCp_upCp, ih rest]

theorem map_charOut_upCp : ∀ l : List Nat, (l.map upCp).map charOut = l.map charOut := by
  intro l
  induction l with
  | nil => rfl
  | cons a t ih => simp [charOut_upCp, ih]

/-- `str.upper()` fixes the newline code point. -/
theorem charOut_ten : charOut 10 = 10 := by decide

/-- `upCp` maps a code point to 10 only from 10 itself. -/
theorem upCp_eq_upCp_ten (a b : Nat) (h : upCp a = upCp b) : a = 10 ↔ b = 10 := by
  unfold upCp at h
  split_ifs at h <;> omega

theorem getLast?_ten_decomp :
    ∀ l : List Nat, l.getLast? = some 10 → l = l.dropLast ++ [10] := by
  intro l
  induction l with
  | nil => intro h; simp at h
  | cons a t ih =>
    cases t with
    | nil =>
      intro h
      simp only [List.getLast?_singleton, Option.some.injEq] at h
      subst h
      rfl
    | cons b t2 =>
      intro h
      rw [List.getLast?_cons_cons] at h
      have h2 := ih h
      conv_lhs => rw [h2]
      rfl

/-- Counterexample to claim C6: the string "aa-bb-cc-dd-ee-ff" followed by one
newline has invalid length (18) and contains a non-hex, non-separator character
(the newline), yet `format_mac` returns the colon-uppercased string (with the
newline preserved) instead of raising TypeError, because Python's `$` (without
`re.MULTILINE`) also matches just before a single trailing newline. -/
theorem C6_format_mac_counterexample :
    macNlW.length = 18
    ∧ (10 : Nat) ∈ macNlW
    ∧ isHexCp 10 = false
    ∧ isSepCp 10 = false
    ∧ format_mac macNlW = .ok macNlOutW := by
  refine ⟨rfl, by decide, rfl, rfl, rfl⟩

/-- Claim C6 as amended: `format_mac` maps every string of six two-hex-digit
octets separated by colons, hyphens or dots to its uppercase colon-separated
form, and does the same when a single trailing newline follows the octets
(Python's `$` matches just before it), preserving the newline; it is idempotent;
it is case-insensitive in its input (two inputs with the same uppercased code
points format identically); every string not of either shape raises TypeError;
and None maps to None. -/
theorem C6_format_mac :
    (∀ l, macGroups 5 l = true →
        format_mac l = .ok (macOutput l) ∧ isCanonMac (macOutput l) = true)
    ∧ (∀ l, macGroups 5 l = true →
        format_mac (l ++ [10]) = .ok (macOutput l ++ [10]))
    ∧ (∀ l m, format_mac l = .ok m → format_mac m = .ok m)
    ∧ (∀ l1 l2, l1.map upCp = l2.map upCp → format_mac l1 = format_mac l2)
    ∧ (∀ l, macGroups 5 l = false →
        (l.getLast? = some 10 → macGroups 5 l.dropLast = false) →
        format_mac l = .error .typeError)
    ∧ format_mac_opt none = .ok none := by
  refine ⟨?_, ?_, ?_, ?_, ?_, rfl⟩
  · intro l h
    obtain ⟨h1, _, h3⟩ := macGroups_charOut 5 l h
    have hm : macMatch l = true := by
      unfold macMatch
      rw [h]
      rfl
    refine ⟨by simp [format_mac, hm], ?_⟩
    have hmo : macMatch (macOutput l) = true := by
      unfold macMatch macOutput
      rw [h1]
      rfl
    unfold isCanonMac
    simp only [hmo, Bool.true_and, List.all_eq_true, decide_eq_true_eq]
    exact fun c hc => h3 c hc
  · intro l h
    have hm : macMatch (l ++ [10]) = true := by
      unfold macMatch
      rw [List.getLast?_concat, List.dropLast_concat, h]
      simp
    have ho : macOutput (l ++ [10]) = macOutput l ++ [10] := by
      unfold macOutput
      rw [List.map_append]
      rfl
    simp [format_mac, hm, ho]
  · intro l m h
    unfold format_mac at h
    split at h
    · next hm =>
      simp only [Except.ok.injEq] at h
      subst h
      unfold macMatch at hm
      rcases Bool.or_eq_true_iff.mp hm with hg | hnl
      · obtain ⟨g1, g2, _⟩ := macGroups_charOut 5 l hg
        have hm2 : macMatch (macOutput l) = true := by
          unfold macMatch macOutput
          rw [g1]
          rfl
        have g2m : macOutput (macOutput l) = macOutput l := g2
        simp [format_mac, hm2, g2m]
      · simp only [Bool.and_eq_true, decide_eq_true_eq] at hnl
        obtain ⟨hl, hg⟩ := hnl
        have hdec : l = l.dropLast ++ [10] := getLast?_ten_decomp l hl
        obtain ⟨g1, g2, _⟩ := macGroups_charOut 5 l.dropLast hg
        have hout : macOutput l = macOutput l.dropLast ++ [10] := by
          conv_lhs => rw [hdec]
          unfold macOutput
          rw [List.map_append]
          rfl
        have hm2 : macMatch (macOutput l) = true := by
          rw [hout]
          unfold macMatch
          rw [List.getLast?_concat, List.dropLast_concat]
          unfold macOutput
          rw [g1]
          simp
        have hout2 : macOutput (macOutput l) = macOutput l := by
          conv_lhs => rw [hout]
          conv_rhs => rw [hout]
          unfold macOutput
          rw [List.map_append, g2]
          rfl
        simp [format_mac, hm2, hout2]
    · exact absurd h (by simp)
  · intro l1 l2 h
    have e1 : macGroups 5 l1 = macGroups 5 l2 := by
      rw [← macGroups_map_upCp 5 l1, h, macGroups_map_upCp 5 l2]
    have e2 : l1.getLast? = some 10 ↔ l2.getLast? = some 10 := by
      have h1 : Option.map upCp l1.getLast? = Option.map upCp l2.getLast? := by
        rw [← List.getLast?_map, ← List.getLast?_map, h]
      cases hgl1 : l1.getLast? with
      | none =>
        cases hgl2 : l2.getLast? with
        | none => simp
        | some b =>
          rw [hgl1, hgl2] at h1
          simp at h1
      | some a =>
        cases hgl2 : l2.getLast? with
        | none =>
          rw [hgl1, hgl2] at h1
          simp at h1
        | some b =>
          rw [hgl1, hgl2] at h1
          simp at h1
          have h10 := upCp_eq_upCp_ten a b h1
          simp only [Option.some.injEq]
          exact h10
    have e3 : macGroups 5 l1.dropLast = macGroups 5 l2.dropLast := by
      have hd : l1.dropLast.map upCp = l2.dropLast.map upCp := by
        rw [List.map_dropLast, List.map_dropLast, h]
      rw [← macGroups_map_upCp 5 l1.dropLast, hd, macGroups_map_upCp 5 l2.dropLast]
    have hmm : macMatch l1 = macMatch l2 := by
      unfold macMatch
      rw [e1, e3, decide_eq_decide.mpr e2]
    have ho : macOutput l1 = macOutput l2 := by
      unfold macOutput
      rw [← map_charOut_upCp l1, h, map_charOut_upCp l2]
    unfold format_mac
    rw [hmm, ho]
  · intro l hg hnl
    have hm : macMatch l = false := by
      unfold macMatch
      rw [hg]
      cases hgl : l.getLast? with
      | none => simp
      | some c =>
        by_cases hc : c = 10
        · subst hc
          rw [hnl hgl]
          simp
        · simp [hc]
    simp [format_mac, hm]

/-- Closed witness for C6: a concrete mixed-case, mixed-separator MAC formats to
the canonical uppercase colon form, also with a trailing newline appended;
re-formatting is the identity; the lowercase variant formats identically; an
invalid string raises. -/
theorem C6_format_mac_witness :
    format_mac macMixedW = .ok (macOutput macMixedW)
    ∧ isCanonMac (macOutput macMixedW) = true
    ∧ format_mac (macMixedW ++ [10]) = .ok (macOutput macMixedW ++ [10])
    ∧ format_mac (macOutput macMixedW) = .ok (macOutput macMixedW)
    ∧ format_mac macMixedW = format_mac macLowerW
    ∧ format_mac macBadW = .error .typeError := by
  refine ⟨(C6_format_mac.1 macMixedW (by decide)).1,
    (C6_format_mac.1 macMixedW (by decide)).2,
    C6_format_mac.2.1 macMixedW (by decide),
    C6_format_mac.2.2.1 macMixedW (macOutput macMixedW)
      ((C6_format_mac.1 macMixedW (by decide)).1),
    C6_format_mac.2.2.2.1 macMixedW macLowerW (by decide),
    C6_format_mac.2.2.2.2.1 macBadW (by decide) (by decide)⟩

theorem from_device_ok_shape (d o d' : Device) (h : d.from_device o = .ok d') :
    oldDisjoint d' ∧ d'.old_addresses.Nodup := by
  cases hd : d.ids with
  | usb fd =>
    cases ho : o.ids with
    | usb fo =>
      simp only [Device.from_device, hd, ho, Except.ok.injEq] at h
      subst h
      constructor
      · intro a ha hmem
        simp only [List.mem_filter, Bool.not_eq_true', decide_eq_false_iff_not] at ha
        exact ha.2 hmem
      · exact (List.nodup_dedup _).filter _
    | lan fo =>
      simp only [Device.from_device, hd, ho] at h
      exact Except.noConfusion h
  | lan fd =>
    cases ho : o.ids with
    | usb fo =>
      simp only [Device.from_device, hd, ho] at h
      exact Except.noConfusion h
    | lan fo =>
      simp only [Device.from_device, hd, ho, Except.ok.injEq] at h
      subst h
      constructor
      · intro a ha hmem
        simp only [List.mem_filter, Bool.not_eq_true', decide_eq_false_iff_not] at ha
        exact ha.2 hmem
      · exact (List.nodup_dedup _).filter _

theorem oldDisjoint_reset (d : Device) : oldDisjoint d.reset_addresses := by
  intro a _ hmem
  simp [Device.reset_addresses, Device.all_addresses] at hmem

theorem device_type_from_device (d o d' : Device) (h : d.from_device o = .ok d') :
    d'.device_type = d.device_type := by
  cases hd : d.ids with
  | usb fd =>
    cases ho : o.ids with
    | usb fo =>
      simp only [Device.from_device, hd, ho, Except.ok.injEq] at h
      subst h
      simp [Device.device_type, hd]
    | lan fo =>
      simp only [Device.from_device, hd, ho] at h
      exact Except.noConfusion h
  | lan fd =>
    cases ho : o.ids with
    | usb fo =>
      simp only [Device.from_device, hd, ho] at h
      exact Except.noConfusion h
    | lan fo =>
      simp only [Device.from_device, hd, ho, Except.ok.injEq] at h
      subst h
      simp [Device.device_type, hd]

theorem oldDisjoint_applyFindOutcome (d : Device) (out : FindOutcome) (d' : Device)
    (hdisj : oldDisjoint d) (h : applyFindOutcome d out = .ok d') : oldDisjoint d' := by
  cases out with
  | cheap =>
    simp only [applyFindOutcome, Except.ok.injEq] at h
    subst h
    exact hdisj
  | found f => exact (from_device_ok_shape d f d' h).1
  | notFound =>
    simp only [applyFindOutcome, Except.ok.injEq] at h
    subst h
    split
    · exact oldDisjoint_reset d
    · exact hdisj

theorem device_type_applyFindOutcome (d : Device) (out : FindOutcome) (d' : Device)
    (h : applyFindOutcome d out = .ok d') : d'.device_type = d.device_type := by
  cases out with
  | cheap =>
    simp only [applyFindOutcome, Except.ok.injEq] at h
    subst h
    rfl
  | found f => exact device_type_from_device d f d' h
  | notFound =>
    simp only [applyFindOutcome, Except.ok.injEq] at h
    subst h
    split
    · rfl
    · rfl

theorem kmLookup_kmSet (km : KindMap) (t : DeviceType) (d : Device) :
    kmLookup (kmSet km t d) t = some d := by
  induction km with
  | nil =>
    unfold kmSet kmLookup
    simp
  | cons p rest ih =>
    obtain ⟨t0, d0⟩ := p
    by_cases h : t0 = t
    · simp [kmSet, kmLookup, h]
    · simp [kmSet, kmLookup, h, ih]

theorem kmLookup_single (t : DeviceType) (d : Device) : kmLookup [(t, d)] t = some d := by
  unfold kmLookup
  simp

theorem regLookup_regSet (reg : Registry) (name : String) (t : DeviceType) (d : Device) :
    regLookup (regSet reg name t d) name t = some d := by
  induction reg with
  | nil =>
    unfold regSet regLookup
    simp [kmLookup_single]
  | cons p rest ih =>
    obtain ⟨n0, km⟩ := p
    by_cases h : n0 = name
    · simp [regSet, regLookup, h, kmLookup_kmSet]
    · simp [regSet, regLookup, h, ih]

theorem manager_set_device_disjoint (env : ScanEnv) (st : MState) (name : String)
    (d : Device) (scan : Bool) (st' : MState) (d2 : Device)
    (hdisj : oldDisjoint d)
    (h : manager_set_device env st name d scan = (none, st'))
    (hlk : regLookup st'.registry name d.device_type = some d2) : oldDisjoint d2 := by
  unfold manager_set_device at h
  rcases hf : find_by_device env d scan st.scanners with ⟨res, sc2⟩
  rw [hf] at h
  cases res with
  | error e => simp at h
  | ok out =>
    dsimp only at h
    cases ha : applyFindOutcome d out with
    | error e2 =>
      rw [ha] at h
      simp at h
    | ok d3 =>
      rw [ha] at h
      dsimp only at h
      simp only [Prod.mk.injEq] at h
      obtain ⟨_, h2⟩ := h
      subst h2
      rw [device_type_applyFindOutcome d out d3 ha] at hlk
      rw [regLookup_regSet] at hlk
      injection hlk with h3
      subst h3
      exact oldDisjoint_applyFindOutcome d out d3 hdisj ha

/-- Claim C2: the reconciliation-flow operations keep the historical address list
disjoint from the current addresses. `from_device` re-establishes disjointness
unconditionally and leaves no duplicates in the merged history; `reset_addresses`
re-establishes it; the registry read and write paths built on them preserve it for
the device they return and store. -/
theorem C2_history_invariant :
    (∀ d o d' : Device, d.from_device o = .ok d' →
        oldDisjoint d' ∧ d'.old_addresses.Nodup)
    ∧ (∀ d : Device, oldDisjoint d.reset_addresses)
    ∧ (∀ env st name t scan (d d2 : Device) st',
        regLookup st.registry name t = some d → oldDisjoint d →
        manager_get_kind env st name t scan = (.ok d2, st') → oldDisjoint d2)
    ∧ (∀ env st name dt (d d2 : Device) scan st', oldDisjoint d →
        manager_set env st name dt (.dev d) scan = (none, st') →
        regLookup st'.registry name d.device_type = some d2 → oldDisjoint d2) := by
  refine ⟨from_device_ok_shape, oldDisjoint_reset, ?_, ?_⟩
  · intro env st name t scan d d2 st' hlk hdisj h
    unfold manager_get_kind at h
    rw [hlk] at h
    dsimp only at h
    rcases hf : find_by_device env d scan st.scanners with ⟨res, sc2⟩
    rw [hf] at h
    cases res with
    | error e => simp at h
    | ok out =>
      dsimp only at h
      cases ha : applyFindOutcome d out with
      | error e2 =>
        rw [ha] at h
        simp at h
      | ok d3 =>
        rw [ha] at h
        dsimp only at h
        simp only [Prod.mk.injEq, Except.ok.injEq] at h
        obtain ⟨h1, _⟩ := h
        subst h1
        exact oldDisjoint_applyFindOutcome d out d3 hdisj ha
  · intro env st name dt d d2 scan st' hdisj h hlk
    cases dt with
    | none =>
      simp only [manager_set] at h
      exact manager_set_device_disjoint env st name d scan st' d2 hdisj h hlk
    | some t =>
      simp only [manager_set] at h
      split at h
      · simp at h
      · exact manager_set_device_disjoint env st name d scan st' d2 hdisj h hlk

/-- Closed witness for C2, instantiating each conjunct at concrete devices and a
concrete registry read and write. -/
theorem C2_history_invariant_witness :
    oldDisjoint devC9merged ∧ devC9merged.old_addresses.Nodup
    ∧ oldDisjoint devC1a.reset_addresses
    ∧ oldDisjoint usbPlain := by
  refine ⟨(C2_history_invariant.1 devC1a devC9other devC9merged rfl).1,
    (C2_history_invariant.1 devC1a devC9other devC9merged rfl).2,
    C2_history_invariant.2.1 devC1a,
    C2_history_invariant.2.2.2 env0 mstEmpty "n" none usbPlain usbPlain false stWafter
      (fun a ha => nomatch ha) rfl rfl⟩

theorem manager_set_device_error_registry (env : ScanEnv) (st : MState) (name : String)
    (d : Device) (scan : Bool) (e : PyErr)
    (h : (manager_set_device env st name d scan).1 = some e) :
    (manager_set_device env st name d scan).2.registry = st.registry := by
  unfold manager_set_device at h ⊢
  rcases hf : find_by_device env d scan st.scanners with ⟨res, sc2⟩
  rw [hf] at h
  cases res with
  | error e2 => rfl
  | ok out =>
    dsimp only at h ⊢
    cases ha : applyFindOutcome d out with
    | error e2 => rfl
    | ok d3 =>
      rw [ha] at h
      simp at h

/-- Claim C5: whenever `DeviceManager.set` raises (kind-mismatch validation,
address-not-found, wrong value type, or any error out of the reconciliation or
lookup machinery), the registry's name-to-kind-to-device mapping afterwards equals
the mapping before the call. -/
theorem C5_set_error_preserves_registry (env : ScanEnv) (st : MState) (name : String)
    (dt : Option DeviceType) (v : SetVal) (scan : Bool) (e : PyErr)
    (h : (manager_set env st name dt v scan).1 = some e) :
    (manager_set env st name dt v scan).2.registry = st.registry := by
  cases v with
  | str s =>
    unfold manager_set at h ⊢
    dsimp only at h ⊢
    rcases hfa : find_by_address env s dt st.scanners with ⟨res, sc2⟩
    rw [hfa] at h
    cases res with
    | error e2 => rfl
    | ok od =>
      cases od with
      | none => rfl
      | some dev => simp at h
  | dev d =>
    cases dt with
    | none =>
      unfold manager_set at h ⊢
      dsimp only at h ⊢
      exact manager_set_device_error_registry env st name d scan e h
    | some t =>
      unfold manager_set at h ⊢
      dsimp only at h ⊢
      by_cases hne : t ≠ d.device_type
      · rw [if_pos hne]
      · rw [if_neg hne] at h ⊢
        exact manager_set_device_error_registry env st name d scan e h
  | other => rfl

/-- Closed witness for C5: writing a USB device under an explicit "lan" kind key
into an empty registry raises the validation error and leaves the name absent. -/
theorem C5_set_error_preserves_registry_witness :
    (manager_set env0 mstEmpty "k" (some .lan) (.dev usbPlain) false).1 = some .valueError
    ∧ (manager_set env0 mstEmpty "k" (some .lan) (.dev usbPlain) false).2.registry = []
    ∧ regLookup (manager_set env0 mstEmpty "k" (some .lan) (.dev usbPlain) false).2.registry
        "k" .usb = none :=
  ⟨rfl,
   C5_set_error_preserves_registry env0 mstEmpty "k" (some .lan) (.dev usbPlain) false
     .valueError rfl,
   rfl⟩

/-- Claim C3 (code bug): with its scanner reporting no matching device, the USB
reconciliation path behaves as claimed (addresses rotated into history and stored,
an address-less device left unchanged, `find_by_device` returning not-found), but
the same path for a LAN device raises AttributeError, because manager.py line 364
reads `scanner.nmap.valid` and `NMAPWrapper` defines no attribute `valid` (the
repository's own test, test_manager.py test_finding_devices, exercises this read
path and would fail). -/
theorem C3_reconcile_disconnect :
    (find_by_device env0 usbDevC3 true scanners0).1 = .ok .notFound
    ∧ (manager_get_kind env0 stC3usb "dev" .usb true).1 = .ok usbDevC3.reset_addresses
    ∧ usbDevC3.reset_addresses.address = none
    ∧ usbDevC3.reset_addresses.address_aliases = []
    ∧ usbDevC3.reset_addresses.old_addresses = ["USB0", "USB1"]
    ∧ regLookup (manager_get_kind env0 stC3usb "dev" .usb true).2.registry "dev" .usb
        = some usbDevC3.reset_addresses
    ∧ (manager_get_kind env0 stC3usbNA "dev" .usb false).1 = .ok usbDevC3NoAddr
    ∧ (find_by_device env0 lanDevC3 true scanners0).1 = .error .attributeError
    ∧ (manager_get_kind env0 stC3lan "dev" .lan true).1 = .error .attributeError :=
  ⟨rfl, rfl, rfl, rfl, rfl, rfl, rfl, rfl, rfl⟩

/-- Claim C4 (code bug): saving the two-entry registry produces the expected
serialized structure, and deserialization alone reconstructs devices of the right
kinds with all saved addresses historical; but loading the file into a fresh
registry whose scanners report no devices raises AttributeError at the LAN entry
(the reconciling store runs `find_by_device`, which reads the undefined
`scanner.nmap.valid`), after having stored the USB entry. (With unmocked scanners
even constructing the fresh `DeviceManager` already raises; see
`C8_aggregate_listing_raises`.) -/
theorem C4_save_load_roundtrip :
    save_manager stC4 = [("my-usb", [("usb", usbReprC4)]), ("my-lan", [("lan", lanReprC4)])]
    ∧ deviceFromDictOld .usb usbReprC4 = .ok loadedUsbC4
    ∧ deviceFromDictOld .lan lanReprC4 = .ok loadedLanC4
    ∧ (manager_load env0 mstEmpty (save_manager stC4)).1 = some .attributeError
    ∧ regLookup (manager_load env0 mstEmpty (save_manager stC4)).2.registry "my-usb" .usb
        = some loadedUsbC4
    ∧ regLookup (manager_load env0 mstEmpty (save_manager stC4)).2.registry "my-lan" .lan
        = none
    ∧ loadedUsbC4.ids = usbDevC4.ids
    ∧ loadedUsbC4.all_addresses = []
    ∧ loadedLanC4.ids = lanDevC4.ids :=
  ⟨rfl, rfl, rfl, rfl, rfl, rfl, rfl, rfl, rfl⟩
